import Mathlib

/-!
Shallow embedding of the trading model-service core
(`src/model-service/app.py`, `calibration.py`, `main.py`, `features.py`,
`registry.py`) over exact rationals.  Python floats are modelled by `ℚ`
(the claims under verification are structural / exact-arithmetic claims);
the one place where IEEE-754 double rounding is observable in control flow
(`int(n_samples * 0.7)` in `walk_forward_validation`) is modelled exactly,
with the double nearest 0.7 and round-to-nearest-even of the product.
-/

namespace ModelService

/-- One row of the backtest `DataFrame` paired with its model prediction.
`run_backtest` in `app.py` computes `predictions = model.predict(X)` once and
the loop pairs row `i` with `predictions[i]`; we carry that value in the row.
`entry_price` is the value of the data column `row['entry_price']` read by the
two position-closing branches (lines 548 and 573 of `app.py`).  Note the data
produced by the services own `generate_backtest_data` has no such column, so on
that data those branches raise `KeyError`; modelling the column as an input
lets the arithmetic of those lines be represented for arbitrary data. -/
structure Row where
  timestamp : ℤ
  price : ℚ
  entry_price : ℚ
  prediction : ℚ
  deriving Repr, DecidableEq

/-- The four trade record types appended by `run_backtest`. -/
inductive TradeKind where
  | open_long
  | close_long
  | open_short
  | close_short
  deriving Repr, DecidableEq

/-- A trade ledger record (`trades.append({...})` in `run_backtest`). -/
structure Trade where
  timestamp : ℤ
  kind : TradeKind
  price : ℚ
  quantity : ℚ
  pnl : ℚ
  deriving Repr, DecidableEq

/-- One equity-curve point (`equity_curve.append({...})` in `run_backtest`). -/
structure EquityPoint where
  timestamp : ℤ
  equity : ℚ
  position : ℚ
  price : ℚ
  deriving Repr, DecidableEq

/-- The mutable loop state of `run_backtest`: `capital`, `position`, the trade
ledger and the equity curve. -/
structure BTState where
  capital : ℚ
  position : ℚ
  trades : List Trade
  equity_curve : List EquityPoint
  deriving Repr, DecidableEq

/-- The body of the `for i, (idx, row) in enumerate(data.iterrows())` loop of
`run_backtest` (`app.py` lines 541-609), transcribed branch by branch:
buy signal when `prediction > 0.01 and position <= 0` (closing a short first
when `position < 0`), sell signal when `prediction < -0.01 and position >= 0`
(closing a long first when `position > 0`), then the equity-curve append. -/
def backtestStep (transaction_cost slippage : ℚ) (st : BTState) (row : Row) :
    BTState :=
  let price := row.price
  let st1 :=
    if row.prediction > 1/100 ∧ st.position ≤ 0 then
      let stc :=
        if st.position < 0 then
          let pnl := (row.entry_price - price) * |st.position| *
            (1 - transaction_cost - slippage)
          { st with
              capital := st.capital + pnl
              trades := st.trades ++
                [⟨row.timestamp, TradeKind.close_short, price, |st.position|, pnl⟩] }
        else st
      let quantity := stc.capital * (95/100) / price
      let entry_price := price * (1 + slippage)
      { stc with
          capital := stc.capital - quantity * entry_price * (1 + transaction_cost)
          position := quantity
          trades := stc.trades ++
            [⟨row.timestamp, TradeKind.open_long, entry_price, quantity, 0⟩] }
    else if row.prediction < -(1/100) ∧ st.position ≥ 0 then
      let stc :=
        if st.position > 0 then
          let pnl := (price - row.entry_price) * st.position *
            (1 - transaction_cost - slippage)
          { st with
              capital := st.capital + pnl
              trades := st.trades ++
                [⟨row.timestamp, TradeKind.close_long, price, st.position, pnl⟩] }
        else st
      let quantity := stc.capital * (95/100) / price
      let entry_price := price * (1 - slippage)
      { stc with
          capital := stc.capital + quantity * entry_price * (1 - transaction_cost)
          position := -quantity
          trades := stc.trades ++
            [⟨row.timestamp, TradeKind.open_short, entry_price, quantity, 0⟩] }
    else st
  let current_equity :=
    if st1.position > 0 then st1.capital + st1.position * price
    else if st1.position < 0 then st1.capital + st1.position * price
    else st1.capital
  { st1 with
      equity_curve := st1.equity_curve ++
        [⟨row.timestamp, current_equity, st1.position, price⟩] }

/-- One step of the max-drawdown scan of `run_backtest` (`app.py` lines
626-631): the pair carries `(peak, max_dd)`. -/
def ddFold (p : ℚ × ℚ) (equity : ℚ) : ℚ × ℚ :=
  let peak := if equity > p.1 then equity else p.1
  let dd := (peak - equity) / peak
  (peak, if dd > p.2 then dd else p.2)

/-- The max-drawdown computation of `run_backtest` (`app.py` lines 623-631):
running peak starts at `initial_capital`, `max_dd` at 0. -/
def maxDrawdown (initial_capital : ℚ) (equities : List ℚ) : ℚ :=
  (equities.foldl ddFold (initial_capital, 0)).2

/-- The dictionary returned by `run_backtest` (`app.py` lines 643-658).
`sharpe_ratio` is not modelled: its value involves the irrational
`sqrt(252)` and no claim refers to it; every other returned field is here. -/
structure Report where
  final_capital : ℚ
  total_return : ℚ
  max_drawdown : ℚ
  win_rate : ℚ
  profit_factor : ℚ
  total_trades : ℕ
  gross_profit : ℚ
  gross_loss : ℚ
  avg_trade : ℚ
  equity_curve : List EquityPoint
  trades : List Trade
  deriving Repr, DecidableEq

/-- `run_backtest` (`app.py` lines 520-658) over a list of rows carrying their
predictions.  Python would raise `ZeroDivisionError` computing `total_return`
when `initial_capital = 0`; in `ℚ` division by zero yields 0, so the embedding
agrees with the source whenever `initial_capital ≠ 0`. -/
def run_backtest (initial_capital transaction_cost slippage : ℚ)
    (data : List Row) : Report :=
  let final := data.foldl (backtestStep transaction_cost slippage)
    ⟨initial_capital, 0, [], []⟩
  let final_capital :=
    match final.equity_curve.getLast? with
    | some e => e.equity
    | none => initial_capital
  let total_return := (final_capital - initial_capital) / initial_capital
  let max_dd := maxDrawdown initial_capital
    (final.equity_curve.map EquityPoint.equity)
  let profitable_trades := final.trades.filter (fun t => t.pnl > 0)
  let losing_trades := final.trades.filter (fun t => t.pnl < 0)
  let win_rate :=
    if final.trades ≠ [] then
      (profitable_trades.length : ℚ) / (final.trades.length : ℚ)
    else 0
  let gross_profit := (profitable_trades.map Trade.pnl).sum
  let gross_loss := |(losing_trades.map Trade.pnl).sum|
  let profit_factor := if gross_loss > 0 then gross_profit / gross_loss else 0
  let avg_trade :=
    if final.trades ≠ [] then
      ((final.trades.map Trade.pnl).sum) / (final.trades.length : ℚ)
    else 0
  { final_capital := final_capital
    total_return := total_return
    max_drawdown := max_dd
    win_rate := win_rate
    profit_factor := profit_factor
    total_trades := final.trades.length
    gross_profit := gross_profit
    gross_loss := gross_loss
    avg_trade := avg_trade
    equity_curve := final.equity_curve
    trades := final.trades }

/-- `np.clip(v, 0, 1)` as used in `calibration.py` lines 10-11. -/
def clip01 (x : ℚ) : ℚ := min (max x 0) 1

/-- The raw long probability of `BinaryCalibrator.calibrate`
(`calibration.py` lines 8 and 10): the fitted calibration curve `cal_long`
(a `joblib`-loaded external model) applied to `s_long = q0 - max q1 q2`,
clipped to `[0,1]`. -/
def rawLong (cal_long : ℚ → ℚ) (q0 q1 q2 : ℚ) : ℚ :=
  clip01 (cal_long (q0 - max q1 q2))

/-- The raw short probability of `BinaryCalibrator.calibrate`
(`calibration.py` lines 9 and 11): `cal_short` applied to
`s_short = q1 - max q0 q2`, clipped to `[0,1]`. -/
def rawShort (cal_short : ℚ → ℚ) (q0 q1 q2 : ℚ) : ℚ :=
  clip01 (cal_short (q1 - max q0 q2))

/-- `p_flat = max(0.0, 1.0 - max(p_long, p_short))` (`calibration.py` line
12). -/
def rawFlat (cal_long cal_short : ℚ → ℚ) (q0 q1 q2 : ℚ) : ℚ :=
  max 0 (1 - max (rawLong cal_long q0 q1 q2) (rawShort cal_short q0 q1 q2))

/-- `s = p_long + p_short + p_flat` (`calibration.py` line 13). -/
def rawSum (cal_long cal_short : ℚ → ℚ) (q0 q1 q2 : ℚ) : ℚ :=
  rawLong cal_long q0 q1 q2 + rawShort cal_short q0 q1 q2 +
    rawFlat cal_long cal_short q0 q1 q2

/-- `BinaryCalibrator.calibrate` (`calibration.py` lines 7-14) on the score
vector `q = (q0, q1, q2)`, parameterised by the two `joblib`-loaded
calibration curves.  It divides the three raw values by their sum `s`
unconditionally: the source has no zero-sum fallback branch. -/
def calibrate (cal_long cal_short : ℚ → ℚ) (q0 q1 q2 : ℚ) : ℚ × ℚ × ℚ :=
  let p_long := rawLong cal_long q0 q1 q2
  let p_short := rawShort cal_short q0 q1 q2
  let p_flat := rawFlat cal_long cal_short q0 q1 q2
  let s := p_long + p_short + p_flat
  (p_long / s, p_short / s, p_flat / s)

/-- `decide_signal` (`main.py` lines 113-131).  The probability vector is
`[sell, hold, buy]`; the result is `(signal, confidence)` with signal
`1` = buy, `-1` = sell, `0` = hold. -/
def decide_signal (sell_prob hold_prob buy_prob : ℚ) : ℤ × ℚ :=
  if buy_prob > 3/5 then (1, buy_prob)
  else if sell_prob > 3/5 then (-1, sell_prob)
  else (0, hold_prob)

/-- `features_live.get(k, 0.0)` on a Python dict modelled as an association
list (first binding wins, default `0.0`). -/
def dictGet (d : List (String × ℚ)) (k : String) : ℚ :=
  match d.find? (fun p => p.1 == k) with
  | some p => p.2
  | none => 0

/-- The row built by `FeaturePipe.make_window` (`features.py` line 8):
`[features_live.get(k, 0.0) for k in self.feature_order]`. -/
def rowOf (feature_order : List String) (d : List (String × ℚ)) : List ℚ :=
  feature_order.map (dictGet d)

/-- The per-row action of the pre-fitted scaler (`self.scaler.transform`,
`features.py` line 11), modelled as the standard per-feature affine transform
`x ↦ (x - mean) / scale` in feature order. -/
def scaleRow (means scales : List ℚ) (row : List ℚ) : List ℚ :=
  (row.zip (means.zip scales)).map (fun p => (p.1 - p.2.1) / p.2.2)

/-- `self.scaler.transform(X)` applied to the stacked window matrix: the
affine transform applied to each row. -/
def scalerTransform (means scales : List ℚ) (X : List (List ℚ)) :
    List (List ℚ) :=
  X.map (scaleRow means scales)

/-- `window_store.append(row)` where `window_store` is the
`deque(maxlen := W)` built by `make_window_store` (`registry.py` line 11):
the deque keeps the last `W` appended rows, evicting the oldest. -/
def windowAppend (W : ℕ) (store : List (List ℚ)) (row : List ℚ) :
    List (List ℚ) :=
  (store ++ [row]).drop (store.length + 1 - W)

/-- `FeaturePipe.make_window` (`features.py` lines 7-11): build the row in
canonical feature order with 0.0 for missing names, append it to the bounded
window store, and return the updated store together with the scaled matrix. -/
def make_window (feature_order : List String) (means scales : List ℚ)
    (W : ℕ) (features_live : List (String × ℚ)) (store : List (List ℚ)) :
    List (List ℚ) × List (List ℚ) :=
  let row := rowOf feature_order features_live
  let store2 := windowAppend W store row
  (store2, scalerTransform means scales store2)

/-- The window store obtained by feeding a sequence of live feature dicts
through `make_window` starting from the empty store. -/
def storeAfter (feature_order : List String) (means scales : List ℚ)
    (W : ℕ) (ds : List (List (String × ℚ))) : List (List ℚ) :=
  ds.foldl (fun st d => (make_window feature_order means scales W d st).1) []

/-- The IEEE-754 double nearest to the literal `0.7`:
`6305039478318694 / 2^53`. -/
def floatC : ℚ := 6305039478318694 / 2^53

/-- Round a positive rational to the nearest IEEE-754 double (53-bit
significand, round half to even; subnormal and overflow ranges are not
reached by the uses below).  `Int.log 2 q` is the binary exponent `⌊log₂ q⌋`
of the value being rounded. -/
def roundDouble (q : ℚ) : ℚ :=
  let e := Int.log 2 q
  let s : ℚ := 2 ^ ((52 : ℤ) - e)
  let r := q * s
  let m : ℤ := ⌊r⌋
  let f := r - m
  let m2 := if f > 1/2 then m + 1 else if f < 1/2 then m
    else if m % 2 = 0 then m else m + 1
  (m2 : ℚ) / s

/-- `int(n_samples * 0.7)` (`app.py` line 494) with exact IEEE-754 double
semantics: multiply `n` (exact in double for `n < 2^53`) by the double
nearest 0.7, round the product to the nearest double, truncate toward zero.
Validated to agree with CPython on an initial range of `n`. -/
def train70 (n : ℕ) : ℕ :=
  if n = 0 then 0 else (⌊roundDouble (n * floatC)⌋).toNat

/-- `sklearn.metrics.r2_score(y_test, y_pred)` (`app.py` line 509):
`1 - ss_res / ss_tot`, with the sklearn edge policy for a zero total sum of
squares (1.0 when the residual is also zero, else 0.0). -/
def r2_score (y_true y_pred : List ℚ) : ℚ :=
  let y_mean := y_true.sum / (y_true.length : ℚ)
  let ss_res := (List.zipWith (fun a b => (a - b) ^ 2) y_true y_pred).sum
  let ss_tot := (y_true.map (fun a => (a - y_mean) ^ 2)).sum
  if ss_tot = 0 then (if ss_res = 0 then 1 else 0) else 1 - ss_res / ss_tot

/-- `walk_forward_validation` (`app.py` lines 485-518).  The model is an
external `sklearn` estimator; its combined `fit`-then-`predict` step is the
supplied `fitPredict : X_train → y_train → X_test → Except err preds`, with
`Except.error` standing for a raised exception.  The `try/except` wrapping
the whole body returns the default `0.5` on any exception; a prediction
vector whose length differs from `y_test` makes `r2_score` raise inside the
same `try`, hence also yields `0.5`. -/
def walk_forward_validation
    (fitPredict : List (List ℚ) → List ℚ → List (List ℚ) →
      Except String (List ℚ))
    (X : List (List ℚ)) (y : List ℚ) : ℚ :=
  let n_samples := X.length
  let train_size := train70 n_samples
  let test_size := n_samples - train_size
  if test_size < 20 then 1/2
  else
    match fitPredict (X.take train_size) (y.take train_size)
        (X.drop train_size) with
    | Except.error _ => 1/2
    | Except.ok y_pred =>
        if y_pred.length = (y.drop train_size).length then
          max 0 (min 1 (r2_score (y.drop train_size) y_pred))
        else 1/2

/-- Claim C1 (the code violates capital conservation): with
`transaction_cost = 0` and `slippage = 0`, `initial_capital = 10000`, and two
bars (price 100, prediction 0.02; then price 100, `entry_price` column 100,
prediction −0.02), `run_backtest` opens a long, then closes it and opens a
short.  Every trade records `pnl = 0`, yet the reported `final_capital` is
500, not `initial_capital + Σ pnl = 10000`: the close branch credits only the
pnl and never returns the notional deducted when the position was opened. -/
theorem capital_conservation_violated_at_two_bars :
    (run_backtest 10000 0 0
      [⟨1, 100, 0, 1/50⟩, ⟨2, 100, 100, -(1/50)⟩]).final_capital = 500 ∧
    ((run_backtest 10000 0 0
      [⟨1, 100, 0, 1/50⟩, ⟨2, 100, 100, -(1/50)⟩]).trades.map Trade.pnl).sum
      = 0 ∧
    (run_backtest 10000 0 0
      [⟨1, 100, 0, 1/50⟩, ⟨2, 100, 100, -(1/50)⟩]).final_capital ≠
      10000 + ((run_backtest 10000 0 0
        [⟨1, 100, 0, 1/50⟩, ⟨2, 100, 100, -(1/50)⟩]).trades.map
          Trade.pnl).sum := by
  refine ⟨?_, ?_, ?_⟩ <;>
    norm_num [run_backtest, backtestStep, maxDrawdown, ddFold]

/-- Claim C2, counterexample to the trade count: alternating Long/Short
signals over 4 bars with `cost = 0.001` and `slippage = 0.0001` produce 7
trades, not 4: the first bar opens a long, and each of the three following
reversal bars appends both a close and an open. -/
theorem alternating_four_bars_make_seven_trades :
    (run_backtest 10000 (1/1000) (1/10000)
      [⟨1, 100, 100, 1/50⟩, ⟨2, 100, 100, -(1/50)⟩,
       ⟨3, 100, 100, 1/50⟩, ⟨4, 100, 100, -(1/50)⟩]).total_trades = 7 ∧
    (run_backtest 10000 (1/1000) (1/10000)
      [⟨1, 100, 100, 1/50⟩, ⟨2, 100, 100, -(1/50)⟩,
       ⟨3, 100, 100, 1/50⟩, ⟨4, 100, 100, -(1/50)⟩]).total_trades ≠ 4 := by
  constructor <;>
    norm_num [run_backtest, backtestStep, maxDrawdown, ddFold]

/-- Claim C2 as amended: when a Long signal (`prediction > 0.01`) arrives
while the position is negative, the step first appends a `close_short` trade
at the current price with
`pnl = (entry_price − price) × |position| × (1 − cost − slippage)`, then opens
a long of quantity `0.95 × capital / price` at `price × (1 + slippage)`,
deducting `quantity × entry × (1 + cost)` from capital and appending an
`open_long` trade with `pnl = 0`; and alternating Long/Short signals over 4
bars produce exactly 7 trades (each reversal bar appends two). -/
theorem long_signal_closes_short_then_opens_long
    (cost slip : ℚ) (st : BTState) (row : Row)
    (hpred : row.prediction > 1/100) (hpos : st.position < 0) :
    (backtestStep cost slip st row).capital =
      st.capital + (row.entry_price - row.price) * |st.position| *
          (1 - cost - slip) -
        ((st.capital + (row.entry_price - row.price) * |st.position| *
          (1 - cost - slip)) * (95/100) / row.price) *
          (row.price * (1 + slip)) * (1 + cost) ∧
    (backtestStep cost slip st row).position =
      (st.capital + (row.entry_price - row.price) * |st.position| *
        (1 - cost - slip)) * (95/100) / row.price ∧
    (backtestStep cost slip st row).trades =
      st.trades ++
        [⟨row.timestamp, TradeKind.close_short, row.price, |st.position|,
          (row.entry_price - row.price) * |st.position| * (1 - cost - slip)⟩,
         ⟨row.timestamp, TradeKind.open_long, row.price * (1 + slip),
          (st.capital + (row.entry_price - row.price) * |st.position| *
            (1 - cost - slip)) * (95/100) / row.price, 0⟩] ∧
    (run_backtest 10000 (1/1000) (1/10000)
      [⟨1, 100, 100, 1/50⟩, ⟨2, 100, 100, -(1/50)⟩,
       ⟨3, 100, 100, 1/50⟩, ⟨4, 100, 100, -(1/50)⟩]).total_trades = 7 := by
  have hpred' : (100 : ℚ)⁻¹ < row.prediction := by
    rw [gt_iff_lt, one_div] at hpred; exact hpred
  refine ⟨?_, ?_, ?_, ?_⟩
  · simp [backtestStep, hpred', hpos, hpos.le, hpos.not_le]
  · simp [backtestStep, hpred', hpos, hpos.le, hpos.not_le]
  · simp [backtestStep, hpred', hpos, hpos.le, hpos.not_le]
  · norm_num [run_backtest, backtestStep, maxDrawdown, ddFold]

/-- Witness for `long_signal_closes_short_then_opens_long`: the hypotheses
hold and the conclusions evaluate at `cost = slippage = 0`, a short position
of 2 units with capital 100, and a bar with price 10, `entry_price` column
12, prediction 0.02. -/
theorem long_signal_closes_short_then_opens_long_witness :
    ((1/50 : ℚ) > 1/100) ∧ ((-2 : ℚ) < 0) ∧
    (backtestStep 0 0 ⟨100, -2, [], []⟩ ⟨7, 10, 12, 1/50⟩).capital = 26/5 ∧
    (backtestStep 0 0 ⟨100, -2, [], []⟩ ⟨7, 10, 12, 1/50⟩).position =
      247/25 ∧
    (backtestStep 0 0 ⟨100, -2, [], []⟩ ⟨7, 10, 12, 1/50⟩).trades =
      [⟨7, TradeKind.close_short, 10, 2, 4⟩,
       ⟨7, TradeKind.open_long, 10, 247/25, 0⟩] := by
  have h := long_signal_closes_short_then_opens_long 0 0
    ⟨100, -2, [], []⟩ ⟨7, 10, 12, 1/50⟩ (by norm_num) (by norm_num)
  refine ⟨by norm_num, by norm_num, ?_, ?_, ?_⟩
  · rw [h.1]; norm_num
  · rw [h.2.1]; norm_num
  · rw [h.2.2.1]; norm_num

/-- Claim C3, counterexample to the uniform fallback: with both calibration
curves returning 0 (so `p_long_raw = p_short_raw = 0`), `calibrate` on the
score vector `(0,0,0)` returns `(0, 0, 1)` — the flat raw value is
`max(0, 1 − 0) = 1`, so the sum is 1, no division by zero occurs, and the
result is not `(1/3, 1/3, 1/3)`. -/
theorem calibrate_zero_scores_not_uniform :
    calibrate (fun _ => 0) (fun _ => 0) 0 0 0 = (0, 0, 1) ∧
    calibrate (fun _ => 0) (fun _ => 0) 0 0 0 ≠ (1/3, 1/3, 1/3) := by
  constructor <;>
    simp [calibrate, rawLong, rawShort, rawFlat, clip01, Prod.ext_iff]

/-- Claim C3 as amended: for every pair of calibration curves and every score
vector, the three raw calibrated values sum to at least 1 — the zero-sum case
the spec guards against is unreachable, and no uniform-fallback branch exists
in the code — and `calibrate` always returns a well-defined normalized
triple: the components sum to exactly 1 and each lies in `[0, 1]`. -/
theorem calibrate_raw_sum_ge_one_and_normalized
    (cal_long cal_short : ℚ → ℚ) (q0 q1 q2 : ℚ) :
    1 ≤ rawSum cal_long cal_short q0 q1 q2 ∧
    (calibrate cal_long cal_short q0 q1 q2).1 +
      (calibrate cal_long cal_short q0 q1 q2).2.1 +
      (calibrate cal_long cal_short q0 q1 q2).2.2 = 1 ∧
    0 ≤ (calibrate cal_long cal_short q0 q1 q2).1 ∧
    (calibrate cal_long cal_short q0 q1 q2).1 ≤ 1 ∧
    0 ≤ (calibrate cal_long cal_short q0 q1 q2).2.1 ∧
    (calibrate cal_long cal_short q0 q1 q2).2.1 ≤ 1 ∧
    0 ≤ (calibrate cal_long cal_short q0 q1 q2).2.2 ∧
    (calibrate cal_long cal_short q0 q1 q2).2.2 ≤ 1 := by
  simp only [calibrate, rawSum, rawFlat, rawLong, rawShort, clip01]
  set x := cal_long (q0 - max q1 q2) with hx
  set y := cal_short (q1 - max q0 q2) with hy
  set A := min (max x 0) 1 with hA
  set B := min (max y 0) 1 with hB
  have hA0 : 0 ≤ A := le_min (le_max_right x 0) zero_le_one
  have hA1 : A ≤ 1 := min_le_right _ _
  have hB0 : 0 ≤ B := le_min (le_max_right y 0) zero_le_one
  have hB1 : B ≤ 1 := min_le_right _ _
  set C := max 0 (1 - max A B) with hC
  have hC0 : 0 ≤ C := le_max_left _ _
  have hCge : 1 - max A B ≤ C := le_max_right _ _
  have hmax0 : 0 ≤ max A B := le_trans hA0 (le_max_left A B)
  have hmaxle : max A B ≤ A + B :=
    max_le (le_add_of_nonneg_right hB0) (le_add_of_nonneg_left hA0)
  have hC1 : C ≤ 1 := max_le zero_le_one (by linarith)
  have hS1 : (1 : ℚ) ≤ A + B + C := by linarith
  have hS0 : (0 : ℚ) < A + B + C := by linarith
  refine ⟨hS1, ?_, div_nonneg hA0 hS0.le, (div_le_one hS0).mpr (by linarith),
    div_nonneg hB0 hS0.le, (div_le_one hS0).mpr (by linarith),
    div_nonneg hC0 hS0.le, (div_le_one hS0).mpr (by linarith)⟩
  rw [div_add_div_same, div_add_div_same, div_self hS0.ne']

/-- Claim C4, counterexample to the argmax contract: at probabilities
`(sell, hold, buy) = (0.5, 0.1, 0.4)` no class exceeds the 0.6 threshold, so
`decide_signal` returns hold with confidence 0.1, although the class with the
highest probability is sell (0.5) and the maximum probability is 0.5. -/
theorem decide_signal_not_argmax :
    decide_signal (1/2) (1/10) (2/5) = (0, 1/10) ∧
    max (max (1/2 : ℚ) (1/10)) (2/5) = 1/2 ∧
    (1/10 : ℚ) ≠ 1/2 := by
  refine ⟨by norm_num [decide_signal], by norm_num, by norm_num⟩

/-- Claim C4 as amended: `decide_signal` is threshold logic, not argmax — it
returns buy (1) with `confidence = buy_prob` when `buy_prob > 0.6`, else sell
(−1) with `confidence = sell_prob` when `sell_prob > 0.6`, else hold (0) with
`confidence = hold_prob`; the confidence is the selected class's
probability, which need not be the maximum of the three. -/
theorem decide_signal_threshold_characterization
    (sell_prob hold_prob buy_prob : ℚ) :
    (buy_prob > 3/5 ∧
      decide_signal sell_prob hold_prob buy_prob = (1, buy_prob)) ∨
    (¬buy_prob > 3/5 ∧ sell_prob > 3/5 ∧
      decide_signal sell_prob hold_prob buy_prob = (-1, sell_prob)) ∨
    (¬buy_prob > 3/5 ∧ ¬sell_prob > 3/5 ∧
      decide_signal sell_prob hold_prob buy_prob = (0, hold_prob)) := by
  by_cases h1 : buy_prob > 3/5
  · exact Or.inl ⟨h1, by simp [decide_signal, h1]⟩
  · by_cases h2 : sell_prob > 3/5
    · exact Or.inr (Or.inl ⟨h1, h2, by simp [decide_signal, h1, h2]⟩)
    · exact Or.inr (Or.inr ⟨h1, h2, by simp [decide_signal, h1, h2]⟩)

/-- Claim C5, counterexample to the fail-fast contract: on an empty price-bar
sequence, `run_backtest` does not raise anything — it returns an ordinary
performance report with `final_capital = initial_capital`, zero trades and
zero metrics.  (The HTTP endpoint separately rejects datasets with fewer than
50 rows before `run_backtest` is ever called.) -/
theorem run_backtest_empty_returns_report :
    run_backtest 10000 (1/1000) (1/10000) [] =
      { final_capital := 10000, total_return := 0, max_drawdown := 0,
        win_rate := 0, profit_factor := 0, total_trades := 0,
        gross_profit := 0, gross_loss := 0, avg_trade := 0,
        equity_curve := [], trades := [] } := by
  norm_num [run_backtest, maxDrawdown, ddFold]

/-- Claim C5 as amended: for every configuration with positive
`initial_capital` (the domain on which the Python division computing
`total_return` is defined), `run_backtest` on the empty bar list returns a
report with `final_capital = initial_capital`, an empty ledger and equity
curve, and zero return, drawdown and trade count — no `InvalidInput` check
exists inside `run_backtest`. -/
theorem run_backtest_empty_report_fields
    (initial_capital transaction_cost slippage : ℚ)
    (_h : 0 < initial_capital) :
    (run_backtest initial_capital transaction_cost slippage
      []).final_capital = initial_capital ∧
    (run_backtest initial_capital transaction_cost slippage []).trades = [] ∧
    (run_backtest initial_capital transaction_cost slippage
      []).equity_curve = [] ∧
    (run_backtest initial_capital transaction_cost slippage
      []).total_trades = 0 ∧
    (run_backtest initial_capital transaction_cost slippage
      []).total_return = 0 ∧
    (run_backtest initial_capital transaction_cost slippage
      []).max_drawdown = 0 := by
  norm_num [run_backtest, maxDrawdown, ddFold]

/-- Witness for `run_backtest_empty_report_fields` at
`initial_capital = 500`, `cost = slippage = 0.001`. -/
theorem run_backtest_empty_report_fields_witness :
    (0 : ℚ) < 500 ∧
    (run_backtest 500 (1/1000) (1/1000) []).final_capital = 500 ∧
    (run_backtest 500 (1/1000) (1/1000) []).total_trades = 0 := by
  have h := run_backtest_empty_report_fields 500 (1/1000) (1/1000)
    (by norm_num)
  exact ⟨by norm_num, h.1, h.2.2.2.1⟩

/-- Claim C6, counterexample to construction-time validation: with a negative
`initial_capital = −100`, negative `transaction_cost = −0.5` and negative
`slippage = −0.01`, `run_backtest` raises no `ConfigurationError` — it
processes the bar and returns a report. -/
theorem run_backtest_accepts_invalid_config :
    (run_backtest (-100) (-(1/2)) (-(1/100))
      [⟨1, 50, 0, 0⟩]).final_capital = -100 ∧
    (run_backtest (-100) (-(1/2)) (-(1/100))
      [⟨1, 50, 0, 0⟩]).total_trades = 0 ∧
    (run_backtest (-100) (-(1/2)) (-(1/100))
      [⟨1, 50, 0, 0⟩]).equity_curve = [⟨1, -100, 0, 50⟩] := by
  refine ⟨?_, ?_, ?_⟩ <;>
    norm_num [run_backtest, backtestStep, maxDrawdown, ddFold]

/-- When every prediction lies in `[−0.01, 0.01]` neither trading branch of
the loop body fires: the state keeps its capital, zero position and empty
ledger, and only equity points (at the unchanged capital) are appended. -/
theorem foldl_flat_predictions (transaction_cost slippage : ℚ)
    (rows : List Row) (cap : ℚ) (ec : List EquityPoint)
    (hflat : ∀ r ∈ rows, -(1/100) ≤ r.prediction ∧ r.prediction ≤ 1/100) :
    rows.foldl (backtestStep transaction_cost slippage) ⟨cap, 0, [], ec⟩ =
      ⟨cap, 0, [],
        ec ++ rows.map (fun r => ⟨r.timestamp, cap, 0, r.price⟩)⟩ := by
  induction rows generalizing ec with
  | nil => simp
  | cons r rs ih =>
      obtain ⟨h1, h2⟩ := hflat r (List.mem_cons_self r rs)
      have hn1 : ¬((100 : ℚ)⁻¹ < r.prediction) := by
        rw [← one_div]; exact not_lt.mpr h2
      have hn2 : ¬(r.prediction < -(100 : ℚ)⁻¹) := by
        rw [← one_div]; exact not_lt.mpr h1
      have hstep : backtestStep transaction_cost slippage ⟨cap, 0, [], ec⟩ r =
          ⟨cap, 0, [], ec ++ [⟨r.timestamp, cap, 0, r.price⟩]⟩ := by
        simp [backtestStep, hn1, hn2]
      rw [List.foldl_cons, hstep,
        ih _ (fun r2 hr2 => hflat r2 (List.mem_cons_of_mem _ hr2))]
      simp

/-- Claim C6 as amended: `run_backtest` performs no validation of its
configuration at all.  For every `initial_capital`, `transaction_cost` and
`slippage` — including non-positive capital and negative costs — and any bar
sequence whose predictions stay inside the no-trade band `[−0.01, 0.01]`, it
runs to completion and reports `final_capital = initial_capital` with an
empty ledger. -/
theorem run_backtest_no_config_validation
    (initial_capital transaction_cost slippage : ℚ) (rows : List Row)
    (hflat : ∀ r ∈ rows, -(1/100) ≤ r.prediction ∧ r.prediction ≤ 1/100) :
    (run_backtest initial_capital transaction_cost slippage
      rows).final_capital = initial_capital ∧
    (run_backtest initial_capital transaction_cost slippage
      rows).trades = [] ∧
    (run_backtest initial_capital transaction_cost slippage
      rows).total_trades = 0 := by
  have hfold := foldl_flat_predictions transaction_cost slippage rows
    initial_capital [] hflat
  simp only [run_backtest, hfold, List.nil_append]
  refine ⟨?_, by simp, by simp⟩
  rw [List.getLast?_map]
  cases hr : rows.getLast? <;> simp

/-- Witness for `run_backtest_no_config_validation`: invalid configuration
(negative capital, cost and slippage) with two in-band bars. -/
theorem run_backtest_no_config_validation_witness :
    (∀ r ∈ [(⟨1, 50, 0, 0⟩ : Row), ⟨2, 60, 0, 1/200⟩],
      -(1/100) ≤ r.prediction ∧ r.prediction ≤ 1/100) ∧
    (run_backtest (-5) (-(1/2)) (-(1/100))
      [⟨1, 50, 0, 0⟩, ⟨2, 60, 0, 1/200⟩]).final_capital = -5 ∧
    (run_backtest (-5) (-(1/2)) (-(1/100))
      [⟨1, 50, 0, 0⟩, ⟨2, 60, 0, 1/200⟩]).trades = [] := by
  have hflat : ∀ r ∈ [(⟨1, 50, 0, 0⟩ : Row), ⟨2, 60, 0, 1/200⟩],
      -(1/100) ≤ r.prediction ∧ r.prediction ≤ 1/100 := by
    intro r hr
    simp only [List.mem_cons, List.not_mem_nil, or_false] at hr
    rcases hr with rfl | rfl <;> constructor <;> norm_num
  have h := run_backtest_no_config_validation (-5) (-(1/2)) (-(1/100))
    [⟨1, 50, 0, 0⟩, ⟨2, 60, 0, 1/200⟩] hflat
  exact ⟨hflat, h.1, h.2.1⟩

/-- One drawdown step keeps the running peak positive. -/
theorem dd_step_pos (peak mdd e : ℚ) (hpeak : 0 < peak) :
    0 < (ddFold (peak, mdd) e).1 := by
  simp only [ddFold]
  split <;> linarith

/-- One drawdown step keeps the running maximum drawdown inside `[0, 1]`,
provided the incoming equity is non-negative. -/
theorem dd_step_bounds (peak mdd e : ℚ) (hpeak : 0 < peak) (h0 : 0 ≤ mdd)
    (h1 : mdd ≤ 1) (he : 0 ≤ e) :
    0 ≤ (ddFold (peak, mdd) e).2 ∧ (ddFold (peak, mdd) e).2 ≤ 1 := by
  simp only [ddFold]
  constructor
  · split_ifs with hgt hdd hdd
    · linarith
    · exact h0
    · linarith
    · exact h0
  · split_ifs with hgt hdd hdd
    · rw [sub_self, zero_div]; exact zero_le_one
    · exact h1
    · rw [div_le_one hpeak]; linarith
    · exact h1

/-- The drawdown scan keeps `0 < peak` and `max_dd ∈ [0, 1]` along any
equity list with non-negative entries. -/
theorem dd_fold_invariant (eqs : List ℚ) (peak mdd : ℚ) (hpeak : 0 < peak)
    (h0 : 0 ≤ mdd) (h1 : mdd ≤ 1) (hnn : ∀ e ∈ eqs, 0 ≤ e) :
    0 < (eqs.foldl ddFold (peak, mdd)).1 ∧
    0 ≤ (eqs.foldl ddFold (peak, mdd)).2 ∧
    (eqs.foldl ddFold (peak, mdd)).2 ≤ 1 := by
  induction eqs generalizing peak mdd with
  | nil => exact ⟨hpeak, h0, h1⟩
  | cons e es ih =>
      have he : 0 ≤ e := hnn e (List.mem_cons_self e es)
      have hb := dd_step_bounds peak mdd e hpeak h0 h1 he
      have hp := dd_step_pos peak mdd e hpeak
      rw [List.foldl_cons, ← Prod.mk.eta (p := ddFold (peak, mdd) e)]
      exact ih _ _ hp hb.1 hb.2
        (fun x hx => hnn x (List.mem_cons_of_mem _ hx))

/-- Claim C8: the `max_drawdown` computed by `run_backtest`'s running-peak
scan lies in `[0, 1]` for every equity curve whose equity values are all
non-negative, when started from a positive `initial_capital`: the peak stays
positive, each point's drawdown `(peak − equity)/peak` is at most 1 because
equity is non-negative, and is never negative because the peak is updated
first. -/
theorem max_drawdown_in_unit_interval (initial_capital : ℚ)
    (equities : List ℚ) (hinit : 0 < initial_capital)
    (hnn : ∀ e ∈ equities, 0 ≤ e) :
    0 ≤ maxDrawdown initial_capital equities ∧
    maxDrawdown initial_capital equities ≤ 1 := by
  have h := dd_fold_invariant equities initial_capital 0 hinit le_rfl
    zero_le_one hnn
  exact ⟨h.2.1, h.2.2⟩

/-- Witness for `max_drawdown_in_unit_interval`: the equity curve
`[50, 120, 60]` from initial capital 100 has `max_drawdown = 1/2`, inside
`[0, 1]`. -/
theorem max_drawdown_in_unit_interval_witness :
    (0 : ℚ) < 100 ∧ (∀ e ∈ [(50 : ℚ), 120, 60], 0 ≤ e) ∧
    maxDrawdown 100 [50, 120, 60] = 1/2 ∧
    0 ≤ maxDrawdown 100 [50, 120, 60] ∧
    maxDrawdown 100 [50, 120, 60] ≤ 1 := by
  have hnn : ∀ e ∈ [(50 : ℚ), 120, 60], 0 ≤ e := by
    intro e he
    simp only [List.mem_cons, List.not_mem_nil, or_false] at he
    rcases he with rfl | rfl | rfl <;> norm_num
  have h := max_drawdown_in_unit_interval 100 [50, 120, 60] (by norm_num) hnn
  exact ⟨by norm_num, hnn, by norm_num [maxDrawdown, ddFold], h.1, h.2⟩

/-- A bracketing characterisation of the binary exponent: if
`2^e ≤ q < 2^(e+1)` then `Int.log 2 q = e`. -/
theorem int_log2_eq_of_bracket (q : ℚ) (e : ℤ) (h1 : (2 : ℚ) ^ e ≤ q)
    (h2 : q < 2 ^ (e + 1)) : Int.log 2 q = e := by
  have hq : 0 < q := lt_of_lt_of_le (by positivity) h1
  have hL1 : (2 : ℚ) ^ Int.log 2 q ≤ q := by
    have := Int.zpow_log_le_self (b := 2) (R := ℚ) one_lt_two hq
    simpa using this
  have hL2 : q < (2 : ℚ) ^ (Int.log 2 q + 1) := by
    have := Int.lt_zpow_succ_log_self (b := 2) (R := ℚ) one_lt_two q
    simpa using this
  have h3 : e < Int.log 2 q + 1 :=
    (zpow_lt_zpow_iff_right₀ (a := (2 : ℚ)) one_lt_two).mp
      (lt_of_le_of_lt h1 hL2)
  have h4 : Int.log 2 q < e + 1 :=
    (zpow_lt_zpow_iff_right₀ (a := (2 : ℚ)) one_lt_two).mp
      (lt_of_le_of_lt hL1 h2)
  omega

/-- Evaluation scheme for `roundDouble`: once the binary exponent and the
scaled floor are known, the rounded value is the explicit round-half-even
choice. -/
theorem roundDouble_eval (q : ℚ) (e m : ℤ) (hlog : Int.log 2 q = e)
    (hm : ⌊q * 2 ^ ((52 : ℤ) - e)⌋ = m) :
    roundDouble q =
      ((if q * 2 ^ ((52 : ℤ) - e) - m > 1/2 then m + 1
        else if q * 2 ^ ((52 : ℤ) - e) - m < 1/2 then m
        else if m % 2 = 0 then m else m + 1 : ℤ) : ℚ) /
        2 ^ ((52 : ℤ) - e) := by
  simp only [roundDouble, hlog, hm]

/-- Concrete evaluation of the float-exact 70% split at 100 samples:
`int(100 * 0.7) = 70` (the double product `100 × fl(0.7)` rounds up to
exactly 70.0). -/
theorem train70_100 : train70 100 = 70 := by
  have he : Int.log 2 ((100 : ℚ) * floatC) = 6 :=
    int_log2_eq_of_bracket _ 6 (by norm_num [floatC]) (by norm_num [floatC])
  have hf : ⌊((100 : ℚ) * floatC) * 2 ^ ((52 : ℤ) - 6)⌋ =
      (4925812092436479 : ℤ) := by
    rw [Int.floor_eq_iff]
    norm_num [floatC]
  have hr : roundDouble ((100 : ℚ) * floatC) =
      ((4925812092436480 : ℤ) : ℚ) / 2 ^ ((52 : ℤ) - 6) := by
    rw [roundDouble_eval _ 6 4925812092436479 he hf,
      if_pos (by norm_num [floatC])]
    norm_num
  simp only [train70, Nat.cast_ofNat]
  rw [if_neg (by norm_num : ¬(100 = 0)), hr]
  norm_num
  decide

/-- Claim C7: `walk_forward_validation` returns exactly 0.5 whenever the test
segment (the rows after the `int(n × 0.7)` split) has fewer than 20 rows,
regardless of data; otherwise, when the externally supplied model fits and
predicts without raising (and returns one prediction per test row), it
returns the out-of-sample R² of those predictions against the trailing test
labels, clamped to `[0, 1]`. -/
theorem walk_forward_low_data_default_and_r2
    (fitPredict : List (List ℚ) → List ℚ → List (List ℚ) →
      Except String (List ℚ))
    (X : List (List ℚ)) (y : List ℚ) :
    (X.length - train70 X.length < 20 →
      walk_forward_validation fitPredict X y = 1/2) ∧
    (∀ preds, 20 ≤ X.length - train70 X.length →
      fitPredict (X.take (train70 X.length)) (y.take (train70 X.length))
        (X.drop (train70 X.length)) = Except.ok preds →
      preds.length = (y.drop (train70 X.length)).length →
      walk_forward_validation fitPredict X y =
        max 0 (min 1 (r2_score (y.drop (train70 X.length)) preds))) := by
  constructor
  · intro hlt
    simp only [walk_forward_validation]
    rw [if_pos hlt]
  · intro preds hge hok hlen
    simp only [walk_forward_validation]
    rw [if_neg (not_lt.mpr hge), hok]
    simp [hlen]

/-- Witness for `walk_forward_low_data_default_and_r2`: with 10 rows the test
segment has at most 10 rows, so the low-data branch fires; with 100 rows of
zeros the split is 70/30, a constant-zero predictor is accepted, and the
result is the clamped R². -/
theorem walk_forward_low_data_default_and_r2_witness :
    ((List.replicate 10 ([0] : List ℚ)).length -
        train70 (List.replicate 10 ([0] : List ℚ)).length < 20 ∧
      walk_forward_validation (fun _ _ _ => Except.ok [])
        (List.replicate 10 ([0] : List ℚ)) (List.replicate 10 (0 : ℚ)) =
        1/2) ∧
    (20 ≤ (List.replicate 100 ([0] : List ℚ)).length -
        train70 (List.replicate 100 ([0] : List ℚ)).length ∧
      walk_forward_validation
        (fun _ _ _ => Except.ok (List.replicate 30 (0 : ℚ)))
        (List.replicate 100 ([0] : List ℚ)) (List.replicate 100 (0 : ℚ)) =
        max 0 (min 1 (r2_score
          ((List.replicate 100 (0 : ℚ)).drop
            (train70 (List.replicate 100 ([0] : List ℚ)).length))
          (List.replicate 30 (0 : ℚ))))) := by
  have h10 : (List.replicate 10 ([0] : List ℚ)).length -
      train70 (List.replicate 10 ([0] : List ℚ)).length < 20 := by
    have : (List.replicate 10 ([0] : List ℚ)).length = 10 :=
      List.length_replicate 10 _
    rw [this]
    exact lt_of_le_of_lt (Nat.sub_le 10 _) (by norm_num)
  have h100 : 20 ≤ (List.replicate 100 ([0] : List ℚ)).length -
      train70 (List.replicate 100 ([0] : List ℚ)).length := by
    rw [List.length_replicate 100 _, train70_100]
    norm_num
  have hlen : (List.replicate 30 (0 : ℚ)).length =
      ((List.replicate 100 (0 : ℚ)).drop
        (train70 (List.replicate 100 ([0] : List ℚ)).length)).length := by
    rw [List.length_replicate 100 _, train70_100]
    simp
  refine ⟨⟨h10, ?_⟩, ⟨h100, ?_⟩⟩
  · exact (walk_forward_low_data_default_and_r2 (fun _ _ _ => Except.ok [])
      (List.replicate 10 ([0] : List ℚ)) (List.replicate 10 (0 : ℚ))).1 h10
  · exact (walk_forward_low_data_default_and_r2
      (fun _ _ _ => Except.ok (List.replicate 30 (0 : ℚ)))
      (List.replicate 100 ([0] : List ℚ)) (List.replicate 100 (0 : ℚ))).2
      (List.replicate 30 (0 : ℚ)) h100 rfl hlen

/-- Claim C10 (implicit behaviour confirmed): whenever the test segment is
large enough that the low-data branch does not fire, an internal failure —
the model raising during fit/predict, or a prediction vector of the wrong
length making the scoring call raise — still makes `walk_forward_validation`
return the same neutral default 0.5, so a caller cannot distinguish an
internal failure from the documented low-data default. -/
theorem walk_forward_default_on_internal_error
    (fitPredict : List (List ℚ) → List ℚ → List (List ℚ) →
      Except String (List ℚ))
    (X : List (List ℚ)) (y : List ℚ) (msg : String) (preds : List ℚ)
    (hge : 20 ≤ X.length - train70 X.length) :
    (fitPredict (X.take (train70 X.length)) (y.take (train70 X.length))
        (X.drop (train70 X.length)) = Except.error msg →
      walk_forward_validation fitPredict X y = 1/2) ∧
    (fitPredict (X.take (train70 X.length)) (y.take (train70 X.length))
        (X.drop (train70 X.length)) = Except.ok preds →
      preds.length ≠ (y.drop (train70 X.length)).length →
      walk_forward_validation fitPredict X y = 1/2) := by
  constructor
  · intro herr
    simp only [walk_forward_validation]
    rw [if_neg (not_lt.mpr hge), herr]
  · intro hok hlen
    simp only [walk_forward_validation]
    rw [if_neg (not_lt.mpr hge), hok]
    dsimp only
    rw [if_neg hlen]

/-- Witness for `walk_forward_default_on_internal_error`: a fit that always
raises, on 100 rows (test segment of 30 rows), yields exactly the low-data
default 0.5. -/
theorem walk_forward_default_on_internal_error_witness :
    20 ≤ (List.replicate 100 ([1] : List ℚ)).length -
      train70 (List.replicate 100 ([1] : List ℚ)).length ∧
    walk_forward_validation (fun _ _ _ => Except.error "fit failed")
      (List.replicate 100 ([1] : List ℚ)) (List.replicate 100 (2 : ℚ)) =
      1/2 := by
  have h100 : 20 ≤ (List.replicate 100 ([1] : List ℚ)).length -
      train70 (List.replicate 100 ([1] : List ℚ)).length := by
    rw [List.length_replicate 100 _, train70_100]
    norm_num
  exact ⟨h100, (walk_forward_default_on_internal_error
    (fun _ _ _ => Except.error "fit failed")
    (List.replicate 100 ([1] : List ℚ)) (List.replicate 100 (2 : ℚ))
    "fit failed" [] h100).1 rfl⟩

/-- The bounded window store keeps exactly the last `W` appended rows: the
fold of `windowAppend` from a store within capacity is a suffix drop of the
concatenation. -/
theorem windowFold_eq (W : ℕ) (rows : List (List ℚ)) (store : List (List ℚ))
    (h : store.length ≤ W) :
    rows.foldl (windowAppend W) store =
      (store ++ rows).drop (store.length + rows.length - W) := by
  induction rows generalizing store with
  | nil =>
      simp [Nat.sub_eq_zero_of_le h]
  | cons r rs ih =>
      rw [List.foldl_cons]
      have hlen : (windowAppend W store r).length =
          store.length + 1 - (store.length + 1 - W) := by
        simp [windowAppend]
      have hle : (windowAppend W store r).length ≤ W := by omega
      rw [ih _ hle, hlen]
      have hsplit : ((store ++ [r]) ++ rs).drop (store.length + 1 - W) =
          ((store ++ [r]).drop (store.length + 1 - W)) ++ rs := by
        rw [List.drop_append_eq_append_drop,
          show store.length + 1 - W - (store ++ [r]).length = 0 by
            simp only [List.length_append, List.length_singleton]
            omega,
          List.drop_zero]
      simp only [windowAppend]
      rw [← hsplit, List.drop_drop, List.append_assoc,
        List.singleton_append]
      congr 1
      simp only [List.length_cons]
      omega

/-- Feeding a dict sequence through `make_window` from the empty store leaves
exactly the last `W` rows (in canonical feature order) in the store. -/
theorem storeAfter_eq (fo : List String) (means scales : List ℚ) (W : ℕ)
    (ds : List (List (String × ℚ))) :
    storeAfter fo means scales W ds =
      (ds.map (rowOf fo)).drop (ds.length - W) := by
  have h : storeAfter fo means scales W ds =
      (ds.map (rowOf fo)).foldl (windowAppend W) [] := by
    rw [List.foldl_map]
    rfl
  rw [h, windowFold_eq W _ [] (by simp)]
  simp

/-- Claim C9: after any sequence of appends, one more `make_window` call (a)
substitutes 0.0 for tracked names missing from the incoming dict, (b) keeps
exactly the last `W` appended rows in insertion order, and (c) returns that
buffer scaled row-by-row with the pre-fitted affine transform, as a matrix
with `min (number of appends) W` rows. -/
theorem make_window_spec (fo : List String) (means scales : List ℚ) (W : ℕ)
    (ds : List (List (String × ℚ))) (d : List (String × ℚ)) :
    (make_window fo means scales W d (storeAfter fo means scales W ds)).1 =
      ((ds ++ [d]).map (rowOf fo)).drop (ds.length + 1 - W) ∧
    (make_window fo means scales W d (storeAfter fo means scales W ds)).2 =
      (((ds ++ [d]).map (rowOf fo)).drop (ds.length + 1 - W)).map
        (scaleRow means scales) ∧
    (make_window fo means scales W d
      (storeAfter fo means scales W ds)).2.length =
      min (ds.length + 1) W ∧
    (∀ d2 : List (String × ℚ), ∀ k : String,
      (∀ p ∈ d2, p.1 ≠ k) → dictGet d2 k = 0) := by
  have h1 : (make_window fo means scales W d
      (storeAfter fo means scales W ds)).1 =
      storeAfter fo means scales W (ds ++ [d]) := by
    simp [storeAfter, make_window, List.foldl_append]
  have h1' : (make_window fo means scales W d
      (storeAfter fo means scales W ds)).1 =
      ((ds ++ [d]).map (rowOf fo)).drop (ds.length + 1 - W) := by
    rw [h1, storeAfter_eq]
    simp
  refine ⟨h1', ?_, ?_, ?_⟩
  · show scalerTransform means scales
      (make_window fo means scales W d
        (storeAfter fo means scales W ds)).1 = _
    rw [h1']
    rfl
  · show (scalerTransform means scales
      (make_window fo means scales W d
        (storeAfter fo means scales W ds)).1).length = _
    rw [h1']
    simp only [scalerTransform, List.length_map, List.length_drop,
      List.length_append, List.length_singleton]
    omega
  · intro d2 k h
    unfold dictGet
    rw [List.find?_eq_none.mpr]
    intro x hx
    simpa using h x hx

/-- Witness for `make_window_spec`: feature order `["a","b"]`, a window of
capacity 2, two earlier appends and a third whose dict lacks `"b"` (scaled as
0.0) and carries an untracked `"c"` (ignored); the oldest row is evicted and
the returned matrix is the scaled last two rows. -/
theorem make_window_spec_witness :
    (make_window ["a", "b"] [1, 0] [1, 2] 2 [("a", 5), ("c", 9)]
      (storeAfter ["a", "b"] [1, 0] [1, 2] 2
        [[("a", 3)], [("b", 4)]])).1 = [[0, 4], [5, 0]] ∧
    (make_window ["a", "b"] [1, 0] [1, 2] 2 [("a", 5), ("c", 9)]
      (storeAfter ["a", "b"] [1, 0] [1, 2] 2
        [[("a", 3)], [("b", 4)]])).2 = [[-1, 2], [4, 0]] ∧
    (make_window ["a", "b"] [1, 0] [1, 2] 2 [("a", 5), ("c", 9)]
      (storeAfter ["a", "b"] [1, 0] [1, 2] 2
        [[("a", 3)], [("b", 4)]])).2.length = min 3 2 ∧
    (∀ p ∈ [("a", (5 : ℚ)), ("c", 9)], p.1 ≠ "b") ∧
    dictGet [("a", (5 : ℚ)), ("c", 9)] "b" = 0 := by
  have h := make_window_spec ["a", "b"] [1, 0] [1, 2] 2
    [[("a", 3)], [("b", 4)]] [("a", 5), ("c", 9)]
  have hmem : ∀ p ∈ [("a", (5 : ℚ)), ("c", 9)], p.1 ≠ "b" := by decide
  refine ⟨?_, ?_, ?_, hmem, h.2.2.2 _ "b" hmem⟩
  · rw [h.1]
    rfl
  · rw [h.2.1,
      show List.drop ([[("a", (3 : ℚ))], [("b", 4)]].length + 1 - 2)
          (List.map (rowOf ["a", "b"])
            ([[("a", 3)], [("b", 4)]] ++ [[("a", 5), ("c", 9)]])) =
        [[0, 4], [5, 0]] from rfl]
    norm_num [scaleRow]
  · rw [h.2.2.1]
    norm_num

end ModelService
